import Mathlib

/-!
Shallow embedding of the vogue-tribe-backend core subsystems:
pricing calculator (src/common/helpers price calculation), checkout
orchestration and cancellation (OrdersService), webhook reconciliation
(PaymentsService), and coupon application (CartService).

Monetary values are modelled as exact rationals; database Int columns as
Lean Int; quantities as Nat (validated positive by the input schemas).
The relational store is modelled by association lists keyed by Nat ids,
and Prisma `$transaction` blocks by pure state transformers that either
apply all their writes or, when the service throws before/inside them,
leave the state untouched (Prisma rolls back a transaction whose callback
throws; all throws in the embedded services occur before the transaction
begins).
-/

namespace VogueTribe

/-- JS `Math.round`: round half toward positive infinity. -/
def jsRound (x : Rat) : Int := Int.floor (x + 1/2)

/-- `roundPrice` from slug.helper.ts: `Math.round(amount * 100) / 100`. -/
def roundPrice (amount : Rat) : Rat := (jsRound (amount * 100) : Rat) / 100

/-- `APP_CONSTANTS.VAT_RATE = 0.075` from common/constants/index.ts. -/
def VAT_RATE : Rat := 75 / 1000

/-- `calculateVAT` from slug.helper.ts. -/
def calculateVAT (amount : Rat) : Rat := roundPrice (amount * VAT_RATE)

/-- Result record of `calculateOrderTotal`. -/
structure OrderTotals where
  vat : Rat
  total : Rat
  discountedSubtotal : Rat
deriving Repr, DecidableEq

/-- `calculateOrderTotal` from slug.helper.ts (the `discount` parameter
defaults to 0 at call sites that omit it; the embedded checkout always
passes it explicitly). -/
def calculateOrderTotal (subtotal shippingCost discount : Rat) : OrderTotals :=
  let discountedSubtotal := max (subtotal - discount) 0
  let vat := calculateVAT discountedSubtotal
  let total := discountedSubtotal + vat + shippingCost
  { vat := roundPrice vat
    total := roundPrice total
    discountedSubtotal := roundPrice discountedSubtotal }

theorem roundPrice_idem (x : Rat) : roundPrice (roundPrice x) = roundPrice x := by
  unfold roundPrice jsRound
  have h : ((Int.floor (x * 100 + 1/2) : Rat) / 100) * 100 = (Int.floor (x * 100 + 1/2) : Rat) := by
    field_simp
  rw [h]
  norm_num

/-! ## Data model (Prisma schema rows, restricted to the fields the core reads) -/

/-- Prisma `OrderStatus` enum (common/types/enums.ts). -/
inductive OrderStatus
  | PENDING | CONFIRMED | PROCESSING | SHIPPED | DELIVERED | CANCELLED | REFUNDED
deriving Repr, DecidableEq

/-- Prisma `PaymentStatus` enum (common/types/enums.ts). -/
inductive PaymentStatus
  | PENDING | SUCCESS | FAILED | REFUNDED | PARTIALLY_REFUNDED
deriving Repr, DecidableEq

/-- Prisma `CouponType` enum (common/types/enums.ts). -/
inductive CouponType
  | PERCENTAGE | FIXED_AMOUNT | FREE_SHIPPING
deriving Repr, DecidableEq

/-- The `product` selection (`name`, `basePrice`) joined onto a variant by
the cart/checkout queries. -/
structure ProductInfo where
  name : String
  basePrice : Rat
deriving Repr, DecidableEq

/-- `ProductVariant` row (fields read by cart/checkout), with its product
join flattened in (each variant has exactly one product). -/
structure Variant where
  stockQuantity : Int
  priceModifier : Rat
  color : String
  size : String
  product : ProductInfo
deriving Repr, DecidableEq

/-- `CartItem` row: quantity is validated >= 1 by the cart schemas. -/
structure CartItem where
  variantId : Nat
  quantity : Nat
deriving Repr, DecidableEq

/-- `Coupon` row (fields read by applyCoupon/checkout). -/
structure Coupon where
  code : String
  type : CouponType
  value : Rat
  isActive : Bool
  startsAt : Int
  expiresAt : Int
  maxUses : Option Int
  usedCount : Int
  minOrderAmount : Option Rat
deriving Repr, DecidableEq

/-- `Cart` row with its items; carts are keyed by the owning userId
(one cart per user, `cart.findUnique where userId`). -/
structure Cart where
  items : List CartItem
  couponId : Option Nat
deriving Repr, DecidableEq

/-- `Address` row fields snapshotted onto orders at checkout. -/
structure AddressSnapshot where
  firstName : String
  lastName : String
  phone : String
  street : String
  city : String
  state : String
  postalCode : String
  country : String
deriving Repr, DecidableEq

/-- `Address` row. -/
structure Address where
  id : Nat
  userId : Nat
  snapshot : AddressSnapshot
deriving Repr, DecidableEq

/-- `OrderItem` row as created by checkout. -/
structure OrderItem where
  variantId : Nat
  quantity : Nat
  unitPrice : Rat
  totalPrice : Rat
  productName : String
  variantColor : String
  variantSize : String
deriving Repr, DecidableEq

/-- `Order` row. `orderNumber` is the random string from
`generateOrderNumber`, supplied to the embedded checkout as a parameter. -/
structure Order where
  orderNumber : String
  userId : Nat
  status : OrderStatus
  subtotal : Rat
  discount : Rat
  shippingCost : Rat
  vat : Rat
  total : Rat
  shippingAddress : AddressSnapshot
  notes : Option String
  couponId : Option Nat
  items : List OrderItem
deriving Repr, DecidableEq

/-- OPay webhook payload (payments schema `opayWebhookSchema`; the schema
restricts `status` to SUCCESS, FAILED or PENDING). -/
structure OPayWebhookDto where
  orderId : String
  reference : String
  status : PaymentStatus
  amount : Rat
  currency : String
deriving Repr, DecidableEq

/-- `Payment` row (fields read/written by the webhook handler). -/
structure Payment where
  orderId : Nat
  reference : String
  amount : Rat
  status : PaymentStatus
  providerRef : Option String
  paidAt : Option Int
  metadata : Option OPayWebhookDto
deriving Repr, DecidableEq

/-- The relational store: association lists keyed by Nat ids
(carts keyed by the owning userId). -/
structure Db where
  variants : List (Nat × Variant)
  coupons : List (Nat × Coupon)
  addresses : List Address
  carts : List (Nat × Cart)
  orders : List (Nat × Order)
  payments : List (Nat × Payment)
deriving Repr, DecidableEq

/-- `findUnique` on a keyed table. -/
def dbLookup {α : Type} (k : Nat) : List (Nat × α) → Option α
  | [] => none
  | (k', v) :: rest => if k' = k then some v else dbLookup k rest

/-- `update where id = k` on a keyed table (the row exists under the
foreign-key integrity the services rely on). -/
def dbUpdate {α : Type} (k : Nat) (f : α → α) : List (Nat × α) → List (Nat × α)
  | [] => []
  | (k', v) :: rest =>
      if k' = k then (k', f v) :: dbUpdate k f rest
      else (k', v) :: dbUpdate k f rest

/-- Typed business errors raised by the core services
(common/filters/exceptions.ts). -/
inductive InvalidCouponReason
  | generic | notActive | expired | maxUsesReached
deriving Repr, DecidableEq

inductive AppError
  | notFound (resource : String)
  | emptyCart
  | orderNotFound
  | orderCancelNotAllowed
  | insufficientStock (available : Int)
  | invalidCoupon (reason : InvalidCouponReason)
  | couponMinNotMet (minAmount : Rat)
  | paymentFailed
deriving Repr, DecidableEq

/-! ## Checkout (OrdersService.checkout)

The service performs only reads and pure computation before calling
`prisma.$transaction`; every throw happens in that phase. The embedding
therefore splits checkout into `checkoutPrepare` (the read/validate/compute
phase, lines 70-146 of the service) and `checkoutCommit` (the transaction
callback, lines 149-210, which performs only unconditional writes). -/

/-- Flat shipping rate hardcoded in OrdersService.checkout. -/
def SHIPPING_FLAT_RATE : Rat := 2500

/-- The stock-verification / line-building loop of checkout: for each cart
item, throw `InsufficientStockException(variant.stockQuantity)` when
`variant.stockQuantity < item.quantity`, else emit the order line with
`unitPrice = product.basePrice + variant.priceModifier`. -/
def buildOrderItems (db : Db) : List CartItem → Except AppError (List OrderItem)
  | [] => .ok []
  | item :: rest =>
    match dbLookup item.variantId db.variants with
    | none => .error (.notFound "Variant")
    | some v =>
      if v.stockQuantity < (item.quantity : Int) then
        .error (.insufficientStock v.stockQuantity)
      else
        let unitPrice := v.product.basePrice + v.priceModifier
        match buildOrderItems db rest with
        | .error e => .error e
        | .ok tail =>
            .ok ({ variantId := item.variantId
                   quantity := item.quantity
                   unitPrice := unitPrice
                   totalPrice := unitPrice * (item.quantity : Rat)
                   productName := v.product.name
                   variantColor := v.color
                   variantSize := v.size } :: tail)

/-- Discount computation at checkout: `PERCENTAGE` takes
`subtotal * value / 100`, `FIXED_AMOUNT` takes `value`, anything else
(FREE_SHIPPING) leaves the discount at 0. -/
def couponDiscount (c : Coupon) (subtotal : Rat) : Rat :=
  match c.type with
  | .PERCENTAGE => subtotal * c.value / 100
  | .FIXED_AMOUNT => c.value
  | .FREE_SHIPPING => 0

/-- Everything the transaction callback consumes, computed before it runs. -/
structure PreparedCheckout where
  userId : Nat
  couponId : Option Nat
  orderItems : List OrderItem
  subtotal : Rat
  discount : Rat
  shippingCost : Rat
  vat : Rat
  total : Rat
  discountedSubtotal : Rat
  shippingAddress : AddressSnapshot
  notes : Option String
deriving Repr, DecidableEq

/-- Phase 1 of checkout: cart fetch + empty check, address ownership check,
stock verification and line building, coupon discount, totals. Performs no
writes. -/
def checkoutPrepare (db : Db) (userId addressId : Nat) (notes : Option String) :
    Except AppError PreparedCheckout :=
  match dbLookup userId db.carts with
  | none => .error .emptyCart
  | some cart =>
    if cart.items.isEmpty then .error .emptyCart
    else
      match db.addresses.find? (fun a => a.id == addressId && a.userId == userId) with
      | none => .error (.notFound "Shipping address")
      | some address =>
        match buildOrderItems db cart.items with
        | .error e => .error e
        | .ok orderItems =>
          let subtotal := (orderItems.map (fun o => o.totalPrice)).sum
          let discount :=
            match cart.couponId.bind (fun cid => dbLookup cid db.coupons) with
            | some c => couponDiscount c subtotal
            | none => 0
          let t := calculateOrderTotal subtotal SHIPPING_FLAT_RATE discount
          .ok { userId := userId
                couponId := cart.couponId
                orderItems := orderItems
                subtotal := subtotal
                discount := discount
                shippingCost := SHIPPING_FLAT_RATE
                vat := t.vat
                total := t.total
                discountedSubtotal := t.discountedSubtotal
                shippingAddress := address.snapshot
                notes := notes }

/-- Fold a per-item variant update over the variants table (shape of both
the checkout decrement loop and the cancellation restore loop). -/
def updateEach (g : OrderItem → Variant → Variant)
    (vs : List (Nat × Variant)) : List OrderItem → List (Nat × Variant)
  | [] => vs
  | item :: rest => updateEach g (dbUpdate item.variantId (g item) vs) rest

/-- The checkout transaction's stock loop:
`stockQuantity: { decrement: item.quantity }` for every line,
unconditionally. -/
def decrementStocks (vs : List (Nat × Variant)) (items : List OrderItem) :
    List (Nat × Variant) :=
  updateEach (fun item v => { v with stockQuantity := v.stockQuantity - (item.quantity : Int) }) vs items

/-- The cancellation transaction's restore loop:
`stockQuantity: { increment: item.quantity }` for every line. -/
def restoreStocks (vs : List (Nat × Variant)) (items : List OrderItem) :
    List (Nat × Variant) :=
  updateEach (fun item v => { v with stockQuantity := v.stockQuantity + (item.quantity : Int) }) vs items

/-- Phase 2 of checkout, the `$transaction` callback: create the order and
its items, decrement each variant's stock, increment the coupon's usedCount
when one is attached, clear the cart's items and detach its coupon. It
contains no conditional abort. `orderNumber` stands for the
`generateOrderNumber()` result. -/
def checkoutCommit (db : Db) (p : PreparedCheckout) (orderNumber : String) :
    Db × Order :=
  let newOrder : Order :=
    { orderNumber := orderNumber
      userId := p.userId
      status := .PENDING
      subtotal := p.discountedSubtotal
      discount := p.discount
      shippingCost := p.shippingCost
      vat := p.vat
      total := p.total
      shippingAddress := p.shippingAddress
      notes := p.notes
      couponId := p.couponId
      items := p.orderItems }
  let orderId := db.orders.length
  let db1 := { db with orders := db.orders ++ [(orderId, newOrder)] }
  let db2 := { db1 with variants := decrementStocks db1.variants p.orderItems }
  let db3 :=
    match p.couponId with
    | some cid =>
        { db2 with coupons := dbUpdate cid (fun c => { c with usedCount := c.usedCount + 1 }) db2.coupons }
    | none => db2
  let db4 :=
    { db3 with carts := dbUpdate p.userId (fun c => { c with items := [], couponId := none }) db3.carts }
  (db4, newOrder)

/-- `OrdersService.checkout`: prepare then commit; a throw during prepare
aborts the request before the transaction ever starts, so the store is
returned unchanged. -/
def checkout (db : Db) (userId addressId : Nat) (notes : Option String)
    (orderNumber : String) : Db × Except AppError Order :=
  match checkoutPrepare db userId addressId notes with
  | .error e => (db, .error e)
  | .ok p =>
      let r := checkoutCommit db p orderNumber
      (r.1, .ok r.2)

/-! ## Order cancellation (OrdersService.cancelOrder) -/

/-- `OrdersService.cancelOrder`: `findFirst where id and userId`, reject
unless status is PENDING or CONFIRMED, then in one transaction restore each
item's quantity onto its variant's stock and set status CANCELLED. Both
throws happen before the transaction, so on error the store is unchanged. -/
def cancelOrder (db : Db) (userId orderId : Nat) : Db × Except AppError Order :=
  match dbLookup orderId db.orders with
  | none => (db, .error .orderNotFound)
  | some o =>
    if o.userId ≠ userId then (db, .error .orderNotFound)
    else if o.status ≠ .PENDING ∧ o.status ≠ .CONFIRMED then
      (db, .error .orderCancelNotAllowed)
    else
      let db1 := { db with variants := restoreStocks db.variants o.items }
      let db2 := { db1 with orders := dbUpdate orderId (fun ord => { ord with status := .CANCELLED }) db1.orders }
      (db2, .ok { o with status := .CANCELLED })

/-! ## Webhook reconciliation (PaymentsService.handleWebhook) -/

/-- `payment.findUnique where reference` (reference is a unique column). -/
def findPaymentByRef (ref : String) : List (Nat × Payment) → Option (Nat × Payment)
  | [] => none
  | p :: rest => if p.2.reference = ref then some p else findPaymentByRef ref rest

/-- `PaymentsService.handleWebhook`: unknown reference or an amount that
differs from the stored payment's amount throws `PaymentFailedException`
before any write; otherwise one transaction overwrites the payment's
status/providerRef/metadata, sets `paidAt` to the current time exactly when
the callback status is SUCCESS (null otherwise), and sets the order to
CONFIRMED exactly when the callback status is SUCCESS. `now` stands for
`new Date()`. -/
def handleWebhook (db : Db) (dto : OPayWebhookDto) (now : Int) :
    Db × Except AppError Payment :=
  match findPaymentByRef dto.reference db.payments with
  | none => (db, .error .paymentFailed)
  | some (pid, payment) =>
    if payment.amount ≠ dto.amount then (db, .error .paymentFailed)
    else
      let updated : Payment :=
        { payment with
          status := dto.status
          providerRef := some dto.reference
          paidAt := if dto.status = .SUCCESS then some now else none
          metadata := some dto }
      let db1 := { db with payments := dbUpdate pid (fun _ => updated) db.payments }
      let db2 :=
        if dto.status = .SUCCESS then
          { db1 with orders := dbUpdate payment.orderId (fun o => { o with status := .CONFIRMED }) db1.orders }
        else db1
      (db2, .ok updated)

/-! ## Coupon application (CartService.applyCoupon) -/

/-- `coupon.findUnique where code` (code is a unique column). -/
def findCouponByCode (code : String) : List (Nat × Coupon) → Option (Nat × Coupon)
  | [] => none
  | c :: rest => if c.2.code = code then some c else findCouponByCode code rest

/-- The cart subtotal reduce in applyCoupon:
`sum + (basePrice + priceModifier) * quantity` over the cart's items. -/
def cartSubtotal (db : Db) (items : List CartItem) : Rat :=
  items.foldl
    (fun sum item =>
      match dbLookup item.variantId db.variants with
      | some v => sum + (v.product.basePrice + v.priceModifier) * (item.quantity : Rat)
      | none => sum)
    0

/-- JS truthiness guard on `coupon.maxUses` (an Int column): null and 0 are
both falsy, so the usage-cap check is skipped for them. -/
def maxUsesExceeded (c : Coupon) : Prop :=
  match c.maxUses with
  | some m => m ≠ 0 ∧ m ≤ c.usedCount
  | none => False

instance (c : Coupon) : Decidable (maxUsesExceeded c) := by
  unfold maxUsesExceeded
  cases c.maxUses <;> infer_instance

/-- `CartService.applyCoupon`: empty-cart check, coupon lookup by code,
active flag, `startsAt > now || expiresAt < now` window check, usage cap,
then subtotal-vs-minOrderAmount; on success the coupon id is written onto
the cart (replacing any previous one). `minOrderAmount` is a nullable
Decimal column, so its JS truthiness guard is nullness. -/
def applyCoupon (db : Db) (userId : Nat) (code : String) (now : Int) :
    Db × Except AppError Unit :=
  match dbLookup userId db.carts with
  | none => (db, .error .emptyCart)
  | some cart =>
    if cart.items.isEmpty then (db, .error .emptyCart)
    else
      match findCouponByCode code db.coupons with
      | none => (db, .error (.invalidCoupon .generic))
      | some (cid, coupon) =>
        if ¬ coupon.isActive then (db, .error (.invalidCoupon .notActive))
        else if coupon.startsAt > now ∨ coupon.expiresAt < now then
          (db, .error (.invalidCoupon .expired))
        else if maxUsesExceeded coupon then
          (db, .error (.invalidCoupon .maxUsesReached))
        else
          let subtotal := cartSubtotal db cart.items
          match coupon.minOrderAmount with
          | some m =>
            if subtotal < m then (db, .error (.couponMinNotMet m))
            else
              ({ db with carts := dbUpdate userId (fun c => { c with couponId := some cid }) db.carts },
               .ok ())
          | none =>
              ({ db with carts := dbUpdate userId (fun c => { c with couponId := some cid }) db.carts },
               .ok ())

/-! ## Store lemmas -/

theorem dbLookup_dbUpdate_self {α : Type} (k : Nat) (f : α → α) (l : List (Nat × α)) :
    dbLookup k (dbUpdate k f l) = (dbLookup k l).map f := by
  induction l with
  | nil => rfl
  | cons hd tl ih =>
    obtain ⟨k', v⟩ := hd
    by_cases h : k' = k
    · subst h
      rw [dbUpdate, if_pos rfl, dbLookup, if_pos rfl, dbLookup, if_pos rfl]
      rfl
    · rw [dbUpdate, if_neg h, dbLookup, if_neg h, dbLookup, if_neg h, ih]

theorem dbLookup_dbUpdate_ne {α : Type} {k k' : Nat} (h : k ≠ k') (f : α → α)
    (l : List (Nat × α)) : dbLookup k' (dbUpdate k f l) = dbLookup k' l := by
  induction l with
  | nil => rfl
  | cons hd tl ih =>
    obtain ⟨k0, v⟩ := hd
    by_cases h0 : k0 = k
    · subst h0
      rw [dbUpdate, if_pos rfl, dbLookup, if_neg h, dbLookup, if_neg h, ih]
    · by_cases h1 : k0 = k'
      · subst h1
        rw [dbUpdate, if_neg h0, dbLookup, if_pos rfl, dbLookup, if_pos rfl]
      · rw [dbUpdate, if_neg h0, dbLookup, if_neg h1, dbLookup, if_neg h1, ih]

theorem updateEach_lookup_not_mem (g : OrderItem → Variant → Variant)
    (vs : List (Nat × Variant)) (items : List OrderItem) (k : Nat)
    (h : ∀ it ∈ items, it.variantId ≠ k) :
    dbLookup k (updateEach g vs items) = dbLookup k vs := by
  induction items generalizing vs with
  | nil => rfl
  | cons hd tl ih =>
    have hhd : hd.variantId ≠ k := h hd (List.mem_cons_self hd tl)
    have htl : ∀ it ∈ tl, it.variantId ≠ k := fun it hit => h it (List.mem_cons_of_mem hd hit)
    simp only [updateEach]
    rw [ih _ htl, dbLookup_dbUpdate_ne hhd]

theorem updateEach_lookup_mem (g : OrderItem → Variant → Variant)
    (vs : List (Nat × Variant)) (items : List OrderItem) (it : OrderItem)
    (hmem : it ∈ items) (hnd : (items.map OrderItem.variantId).Nodup) :
    dbLookup it.variantId (updateEach g vs items) =
      (dbLookup it.variantId vs).map (g it) := by
  induction items generalizing vs with
  | nil => exact absurd hmem (List.not_mem_nil it)
  | cons hd tl ih =>
    rw [List.map_cons, List.nodup_cons] at hnd
    rcases List.mem_cons.mp hmem with heq | htl
    · subst heq
      simp only [updateEach]
      have hrest : ∀ j ∈ tl, j.variantId ≠ it.variantId := by
        intro j hj hcontra
        exact hnd.1 (hcontra ▸ List.mem_map_of_mem OrderItem.variantId hj)
      rw [updateEach_lookup_not_mem g _ tl it.variantId hrest,
        dbLookup_dbUpdate_self]
    · simp only [updateEach]
      have hne : hd.variantId ≠ it.variantId := by
        intro hcontra
        exact hnd.1 (hcontra ▸ List.mem_map_of_mem OrderItem.variantId htl)
      rw [ih _ htl hnd.2, dbLookup_dbUpdate_ne hne]

/-! ## buildOrderItems lemmas -/

theorem buildOrderItems_ok_ids {db : Db} {items : List CartItem} {ois : List OrderItem}
    (h : buildOrderItems db items = .ok ois) :
    ois.map (fun o => (o.variantId, o.quantity)) =
      items.map (fun i => (i.variantId, i.quantity)) := by
  induction items generalizing ois with
  | nil =>
    simp only [buildOrderItems] at h
    cases h
    rfl
  | cons hd tl ih =>
    simp only [buildOrderItems] at h
    cases hv : dbLookup hd.variantId db.variants with
    | none =>
      simp only [hv] at h
      exact Except.noConfusion h
    | some v =>
      simp only [hv] at h
      by_cases hs : v.stockQuantity < (hd.quantity : Int)
      · simp only [if_pos hs] at h
        exact Except.noConfusion h
      · simp only [if_neg hs] at h
        cases ht : buildOrderItems db tl with
        | error e =>
          simp only [ht] at h
          exact Except.noConfusion h
        | ok tail =>
          simp only [ht] at h
          cases h
          simp [ih ht]

theorem buildOrderItems_ok_of_stock {db : Db} {items : List CartItem}
    (h : ∀ it ∈ items, ∃ v, dbLookup it.variantId db.variants = some v ∧
      (it.quantity : Int) ≤ v.stockQuantity) :
    ∃ ois, buildOrderItems db items = .ok ois := by
  induction items with
  | nil => exact ⟨[], rfl⟩
  | cons hd tl ih =>
    obtain ⟨v, hv, hstock⟩ := h hd (List.mem_cons_self hd tl)
    obtain ⟨tail, htail⟩ := ih (fun it hit => h it (List.mem_cons_of_mem hd hit))
    refine ⟨{ variantId := hd.variantId, quantity := hd.quantity
              unitPrice := v.product.basePrice + v.priceModifier
              totalPrice := (v.product.basePrice + v.priceModifier) * (hd.quantity : Rat)
              productName := v.product.name
              variantColor := v.color
              variantSize := v.size } :: tail, ?_⟩
    simp only [buildOrderItems, hv, htail, if_neg (not_lt.mpr hstock)]

theorem buildOrderItems_error_of_insufficient {db : Db} {items : List CartItem}
    (hall : ∀ it ∈ items, (dbLookup it.variantId db.variants).isSome)
    (h : ∃ it ∈ items, ∃ v, dbLookup it.variantId db.variants = some v ∧
      v.stockQuantity < (it.quantity : Int)) :
    ∃ it ∈ items, ∃ v, dbLookup it.variantId db.variants = some v ∧
      v.stockQuantity < (it.quantity : Int) ∧
      buildOrderItems db items = .error (.insufficientStock v.stockQuantity) := by
  induction items with
  | nil => obtain ⟨it, hit, _⟩ := h; exact absurd hit (List.not_mem_nil it)
  | cons hd tl ih =>
    obtain ⟨vhd, hvhd⟩ := Option.isSome_iff_exists.mp (hall hd (List.mem_cons_self hd tl))
    by_cases hshd : vhd.stockQuantity < (hd.quantity : Int)
    · refine ⟨hd, List.mem_cons_self hd tl, vhd, hvhd, hshd, ?_⟩
      simp only [buildOrderItems, hvhd]
      rw [if_pos hshd]
    · have htl : ∃ it ∈ tl, ∃ v, dbLookup it.variantId db.variants = some v ∧
          v.stockQuantity < (it.quantity : Int) := by
        obtain ⟨it, hit, v, hv, hs⟩ := h
        rcases List.mem_cons.mp hit with heq | hmem
        · subst heq
          rw [hv] at hvhd
          cases hvhd
          exact absurd hs hshd
        · exact ⟨it, hmem, v, hv, hs⟩
      obtain ⟨it, hit, v, hv, hs, herr⟩ :=
        ih (fun j hj => hall j (List.mem_cons_of_mem hd hj)) htl
      refine ⟨it, List.mem_cons_of_mem hd hit, v, hv, hs, ?_⟩
      simp only [buildOrderItems, hvhd, herr]
      rw [if_neg hshd]

theorem roundPrice_nonneg {x : Rat} (hx : 0 ≤ x) : 0 ≤ roundPrice x := by
  unfold roundPrice jsRound
  have h1 : (0 : Rat) ≤ x * 100 + 1/2 := by positivity
  have h2 : (0 : Int) ≤ Int.floor (x * 100 + 1/2) := by
    rw [Int.le_floor]
    exact_mod_cast h1
  positivity

/-! ## Claim theorems -/

/-- C4: for all nonnegative subtotal, shipping and discount, the pricing
calculator returns discountedSubtotal = max(subtotal - discount, 0), VAT =
discountedSubtotal * 0.075 and total = discountedSubtotal + VAT + shipping,
each result rounded to two decimals (the discount floored at zero before
VAT, so the returned VAT and discounted subtotal are never negative); in
particular subtotal=10000, discount=1000, shipping=2500 gives
discountedSubtotal=9000, VAT=675, total=12175. The calculator is a pure
function, hence deterministic and side-effect free. -/
theorem calculateOrderTotal_spec
    (subtotal shippingCost discount : Rat)
    (hs : 0 ≤ subtotal) (hh : 0 ≤ shippingCost) (hd : 0 ≤ discount) :
    (calculateOrderTotal subtotal shippingCost discount).discountedSubtotal =
      roundPrice (max (subtotal - discount) 0) ∧
    (calculateOrderTotal subtotal shippingCost discount).vat =
      roundPrice (max (subtotal - discount) 0 * VAT_RATE) ∧
    (calculateOrderTotal subtotal shippingCost discount).total =
      roundPrice (max (subtotal - discount) 0 +
        roundPrice (max (subtotal - discount) 0 * VAT_RATE) + shippingCost) ∧
    0 ≤ (calculateOrderTotal subtotal shippingCost discount).discountedSubtotal ∧
    0 ≤ (calculateOrderTotal subtotal shippingCost discount).vat ∧
    calculateOrderTotal 10000 2500 1000 =
      { vat := 675, total := 12175, discountedSubtotal := 9000 } := by
  refine ⟨rfl, ?_, rfl, ?_, ?_,
    by norm_num [calculateOrderTotal, calculateVAT, roundPrice, jsRound,
      VAT_RATE, OrderTotals.mk.injEq]⟩
  · exact roundPrice_idem _
  · exact roundPrice_nonneg (le_max_right _ _)
  · show 0 ≤ roundPrice (calculateVAT (max (subtotal - discount) 0))
    unfold calculateVAT
    refine roundPrice_nonneg (roundPrice_nonneg ?_)
    have h0 : (0 : Rat) ≤ max (subtotal - discount) 0 := le_max_right _ _
    have hr : (0 : Rat) ≤ VAT_RATE := by norm_num [VAT_RATE]
    exact mul_nonneg h0 hr

/-- Witness for C4 at subtotal=10000, shipping=2500, discount=1000. -/
theorem calculateOrderTotal_spec_witness :
    calculateOrderTotal 10000 2500 1000 =
      { vat := 675, total := 12175, discountedSubtotal := 9000 } :=
  (calculateOrderTotal_spec 10000 2500 1000 (by norm_num) (by norm_num)
    (by norm_num)).2.2.2.2.2

/-- C1: checkout is atomic: whenever checkout returns an error (empty cart,
address not found or not owned, insufficient stock), the store is returned
exactly as it was: no order rows, no variant stock changes, no coupon
usedCount change, and the cart's items and attached coupon untouched. All
throws happen before the transaction begins and the transaction itself
never throws, so an aborted attempt persists nothing. -/
theorem checkout_abort_atomic
    (db : Db) (userId addressId : Nat) (notes : Option String)
    (orderNumber : String) (e : AppError)
    (h : (checkout db userId addressId notes orderNumber).2 = .error e) :
    (checkout db userId addressId notes orderNumber).1 = db ∧
    (checkout db userId addressId notes orderNumber).1.orders = db.orders ∧
    (checkout db userId addressId notes orderNumber).1.variants = db.variants ∧
    (checkout db userId addressId notes orderNumber).1.coupons = db.coupons ∧
    (checkout db userId addressId notes orderNumber).1.carts = db.carts := by
  cases hp : checkoutPrepare db userId addressId notes with
  | error e' =>
    simp [checkout, hp]
  | ok p =>
    simp only [checkout, hp] at h
    exact Except.noConfusion h

/-- Witness for C1: checkout against an empty store aborts with EmptyCart
and leaves the store unchanged. -/
theorem checkout_abort_atomic_witness :
    (checkout { variants := [], coupons := [], addresses := [], carts := [],
                orders := [], payments := [] } 1 1 none "VT-X").1 =
      { variants := [], coupons := [], addresses := [], carts := [],
        orders := [], payments := [] } :=
  (checkout_abort_atomic
    { variants := [], coupons := [], addresses := [], carts := [],
      orders := [], payments := [] } 1 1 none "VT-X" .emptyCart rfl).1

theorem checkout_variants_of_ok
    {db : Db} {userId addressId : Nat} {notes : Option String}
    {orderNumber : String} {p : PreparedCheckout}
    (hp : checkoutPrepare db userId addressId notes = .ok p) :
    (checkout db userId addressId notes orderNumber).1.variants =
      decrementStocks db.variants p.orderItems := by
  simp only [checkout, hp, checkoutCommit, decrementStocks]
  cases p.couponId <;> rfl

theorem checkoutPrepare_items
    {db : Db} {userId addressId : Nat} {notes : Option String}
    {cart : Cart} {p : PreparedCheckout}
    (hcart : dbLookup userId db.carts = some cart)
    (hp : checkoutPrepare db userId addressId notes = .ok p) :
    buildOrderItems db cart.items = .ok p.orderItems := by
  simp only [checkoutPrepare, hcart] at hp
  by_cases hne : cart.items.isEmpty
  · rw [if_pos hne] at hp
    exact Except.noConfusion hp
  · rw [if_neg hne] at hp
    cases ha : db.addresses.find? (fun a => a.id == addressId && a.userId == userId) with
    | none =>
      rw [ha] at hp
      exact Except.noConfusion hp
    | some address =>
      rw [ha] at hp
      cases hb : buildOrderItems db cart.items with
      | error e =>
        rw [hb] at hp
        exact Except.noConfusion hp
      | ok ois =>
        rw [hb] at hp
        cases hp
        rfl

/-- C2 (amended): on a sequential execution, if some cart line's quantity
exceeds its variant's stock, checkout aborts with an insufficient-stock
error carrying an offending variant's available quantity and the store is
unchanged; if every line is within stock, checkout succeeds and each
ordered variant's stock is decremented by exactly the ordered quantity.
The availability check is performed in application code before the
transaction begins, not inside it (see the counterexample theorem). -/
theorem checkout_stock_semantics
    (db : Db) (userId addressId : Nat) (notes : Option String)
    (orderNumber : String) (cart : Cart)
    (hcart : dbLookup userId db.carts = some cart)
    (hne : cart.items.isEmpty = false)
    (haddr : (db.addresses.find? (fun a => a.id == addressId && a.userId == userId)).isSome)
    (hres : ∀ it ∈ cart.items, (dbLookup it.variantId db.variants).isSome) :
    ((∃ it ∈ cart.items, ∃ v, dbLookup it.variantId db.variants = some v ∧
        v.stockQuantity < (it.quantity : Int)) →
      ∃ it ∈ cart.items, ∃ v, dbLookup it.variantId db.variants = some v ∧
        v.stockQuantity < (it.quantity : Int) ∧
        (checkout db userId addressId notes orderNumber).2 =
          .error (.insufficientStock v.stockQuantity) ∧
        (checkout db userId addressId notes orderNumber).1 = db) ∧
    ((∀ it ∈ cart.items, ∃ v, dbLookup it.variantId db.variants = some v ∧
        (it.quantity : Int) ≤ v.stockQuantity) →
      (cart.items.map CartItem.variantId).Nodup →
      (∃ o, (checkout db userId addressId notes orderNumber).2 = .ok o) ∧
      ∀ it ∈ cart.items, ∀ v, dbLookup it.variantId db.variants = some v →
        dbLookup it.variantId (checkout db userId addressId notes orderNumber).1.variants =
          some { v with stockQuantity := v.stockQuantity - (it.quantity : Int) }) := by
  obtain ⟨address, haddr'⟩ := Option.isSome_iff_exists.mp haddr
  constructor
  · intro hex
    obtain ⟨it, hit, v, hv, hs, herr⟩ := buildOrderItems_error_of_insufficient hres hex
    have hp : checkoutPrepare db userId addressId notes =
        .error (.insufficientStock v.stockQuantity) := by
      simp only [checkoutPrepare, hcart, hne, Bool.false_eq_true, if_false, haddr', herr]
    refine ⟨it, hit, v, hv, hs, ?_, ?_⟩ <;> simp only [checkout, hp]
  · intro hall hnd
    have hok : ∃ ois, buildOrderItems db cart.items = .ok ois :=
      buildOrderItems_ok_of_stock hall
    obtain ⟨ois, hois⟩ := hok
    cases hp : checkoutPrepare db userId addressId notes with
    | error e =>
      exfalso
      simp [checkoutPrepare, hcart, hne, haddr', hois] at hp
    | ok p =>
    have hpitems : p.orderItems = ois := by
      have hbi := checkoutPrepare_items hcart hp
      rw [hois] at hbi
      exact (Except.ok.inj hbi).symm
    constructor
    · exact ⟨(checkoutCommit db p orderNumber).2, by simp only [checkout, hp]⟩
    · intro it hit v hv
      rw [checkout_variants_of_ok hp, hpitems]
      have hids := buildOrderItems_ok_ids hois
      have hmem : (it.variantId, it.quantity) ∈
          cart.items.map (fun i => (i.variantId, i.quantity)) :=
        List.mem_map_of_mem _ hit
      rw [← hids] at hmem
      obtain ⟨oi, hoi, heq⟩ := List.mem_map.mp hmem
      have hvid : oi.variantId = it.variantId := congrArg Prod.fst heq
      have hq : oi.quantity = it.quantity := congrArg Prod.snd heq
      have hnd' : (ois.map OrderItem.variantId).Nodup := by
        have : ois.map OrderItem.variantId =
            cart.items.map CartItem.variantId := by
          have h1 := congrArg (List.map Prod.fst) hids
          simpa [List.map_map, Function.comp] using h1
        rw [this]
        exact hnd
      have := updateEach_lookup_mem
        (fun item v => { v with stockQuantity := v.stockQuantity - (item.quantity : Int) })
        db.variants ois oi hoi hnd'
      rw [hvid] at this
      rw [decrementStocks, ← hq, this, hv]
      rfl

/-- Witness for C2: a two-line cart where the second line exceeds stock
aborts with the available quantity, and a one-line cart within stock
succeeds with the stock decremented from 5 to 3. -/
theorem checkout_stock_semantics_witness :
    ∃ it ∈ ([⟨0, 2⟩] : List CartItem), ∃ v,
      dbLookup it.variantId [(0, (⟨1, 0, "Red", "M", ⟨"Tee", 1000⟩⟩ : Variant))] = some v ∧
      v.stockQuantity < (it.quantity : Int) ∧
      (checkout ⟨[(0, ⟨1, 0, "Red", "M", ⟨"Tee", 1000⟩⟩)], [],
          [⟨1, 1, ⟨"A", "B", "", "", "", "", "", "NG"⟩⟩],
          [(1, ⟨[⟨0, 2⟩], none⟩)], [], []⟩ 1 1 none "VT-W").2 =
        .error (.insufficientStock v.stockQuantity) ∧
      (checkout ⟨[(0, ⟨1, 0, "Red", "M", ⟨"Tee", 1000⟩⟩)], [],
          [⟨1, 1, ⟨"A", "B", "", "", "", "", "", "NG"⟩⟩],
          [(1, ⟨[⟨0, 2⟩], none⟩)], [], []⟩ 1 1 none "VT-W").1 =
        ⟨[(0, ⟨1, 0, "Red", "M", ⟨"Tee", 1000⟩⟩)], [],
          [⟨1, 1, ⟨"A", "B", "", "", "", "", "", "NG"⟩⟩],
          [(1, ⟨[⟨0, 2⟩], none⟩)], [], []⟩ :=
  (checkout_stock_semantics
    ⟨[(0, ⟨1, 0, "Red", "M", ⟨"Tee", 1000⟩⟩)], [],
      [⟨1, 1, ⟨"A", "B", "", "", "", "", "", "NG"⟩⟩],
      [(1, ⟨[⟨0, 2⟩], none⟩)], [], []⟩ 1 1 none "VT-W"
    ⟨[⟨0, 2⟩], none⟩ rfl rfl (by rfl)
    (by intro it hit; fin_cases hit <;> rfl)).1
    ⟨⟨0, 2⟩, by simp, ⟨1, 0, "Red", "M", ⟨"Tee", 1000⟩⟩, rfl, by norm_num⟩

/-! ## Concrete scenarios -/

/-- Concrete scenario for the C2 counterexample: one variant (id 0) with
stock 1, one user (id 1) whose cart orders quantity 1 of it. -/
def cxSnap : AddressSnapshot := ⟨"Ada", "Obi", "080", "1 Main", "Lagos", "LA", "100001", "NG"⟩

def cxVariant : Variant := ⟨1, 0, "Red", "M", ⟨"Tee", 1000⟩⟩

def cxDb : Db := ⟨[(0, cxVariant)], [], [⟨1, 1, cxSnap⟩], [(1, ⟨[⟨0, 1⟩], none⟩)], [], []⟩

/-- The same store after another checkout has taken the last unit (variant 0
now has stock 0). -/
def cxDbDepleted : Db :=
  ⟨[(0, ⟨0, 0, "Red", "M", ⟨"Tee", 1000⟩⟩)], [], [⟨1, 1, cxSnap⟩],
    [(1, ⟨[⟨0, 1⟩], none⟩)], [], []⟩

/-- The prepared-checkout data the service computes for `cxDb`. -/
def cxPrep : PreparedCheckout :=
  ⟨1, none, [⟨0, 1, 1000, 1000, "Tee", "Red", "M"⟩], 1000, 0, 2500, 75, 3575, 1000, cxSnap, none⟩

/-- C2 counterexample: the insufficient-stock check is not inside the
transaction. The validation phase on `cxDb` (stock 1, quantity 1) passes
and produces `cxPrep`; replaying the transaction callback against a store
whose stock has meanwhile dropped to 0 performs the decrement anyway,
persisting stock -1 and a PENDING order instead of aborting — so the
check and the decrement are not in the same transaction, refuting the
claim as stated. -/
theorem checkout_commit_has_no_stock_check :
    checkoutPrepare cxDb 1 1 none = .ok cxPrep ∧
    Option.map Variant.stockQuantity
      (dbLookup 0 (checkoutCommit cxDbDepleted cxPrep "VT-A").1.variants) = some (-1) ∧
    (checkoutCommit cxDbDepleted cxPrep "VT-A").2.status = .PENDING := by
  refine ⟨?_, ?_, rfl⟩
  · norm_num [checkoutPrepare, buildOrderItems, dbLookup, cxDb, cxVariant, cxPrep, cxSnap,
      calculateOrderTotal, calculateVAT, roundPrice, jsRound, VAT_RATE, SHIPPING_FLAT_RATE,
      List.find?, couponDiscount, PreparedCheckout.mk.injEq, OrderItem.mk.injEq]
  · norm_num [checkoutCommit, cxDbDepleted, cxPrep, decrementStocks, updateEach, dbUpdate,
      dbLookup, cxSnap]

/-- Concrete scenario for C3: one variant (id 0) with stock 1; users 1 and
2 each have a cart ordering quantity 1 of it and their own address. -/
def raceSnap : AddressSnapshot := ⟨"Bola", "Eze", "081", "2 Main", "Lagos", "LA", "100001", "NG"⟩

def raceDb : Db :=
  ⟨[(0, ⟨1, 0, "Red", "M", ⟨"Tee", 1000⟩⟩)], [],
    [⟨1, 1, raceSnap⟩, ⟨2, 2, raceSnap⟩],
    [(1, ⟨[⟨0, 1⟩], none⟩), (2, ⟨[⟨0, 1⟩], none⟩)], [], []⟩

def racePrep1 : PreparedCheckout :=
  ⟨1, none, [⟨0, 1, 1000, 1000, "Tee", "Red", "M"⟩], 1000, 0, 2500, 75, 3575, 1000, raceSnap, none⟩

def racePrep2 : PreparedCheckout :=
  ⟨2, none, [⟨0, 1, 1000, 1000, "Tee", "Red", "M"⟩], 1000, 0, 2500, 75, 3575, 1000, raceSnap, none⟩

/-- The store after the interleaving: both validation phases run against
the initial store (each sees stock 1), then both transactions commit. -/
def raceFinalDb : Db :=
  (checkoutCommit (checkoutCommit raceDb racePrep1 "VT-1").1 racePrep2 "VT-2").1

/-- C3: the read-then-write pattern oversells under concurrency. With
variant stock N = 1, two concurrent checkouts of quantity 1 both pass the
application-code availability check against the initial store; committing
both transactions persists two orders (2 units sold > N) and drives the
variant's stock to -1, violating stock non-negativity. The claim's
serialization property does not hold of the code. -/
theorem checkout_race_oversells :
    checkoutPrepare raceDb 1 1 none = .ok racePrep1 ∧
    checkoutPrepare raceDb 2 2 none = .ok racePrep2 ∧
    Option.map Variant.stockQuantity (dbLookup 0 raceFinalDb.variants) = some (-1) ∧
    raceFinalDb.orders.length = 2 ∧
    ((raceFinalDb.orders.map (fun kv => ((kv.2.items.map OrderItem.quantity).sum : Int))).sum = 2) := by
  refine ⟨?_, ?_, ?_, ?_, ?_⟩
  · norm_num [checkoutPrepare, buildOrderItems, dbLookup, raceDb, racePrep1, raceSnap,
      calculateOrderTotal, calculateVAT, roundPrice, jsRound, VAT_RATE, SHIPPING_FLAT_RATE,
      List.find?, couponDiscount, PreparedCheckout.mk.injEq, OrderItem.mk.injEq]
  · norm_num [checkoutPrepare, buildOrderItems, dbLookup, raceDb, racePrep2, raceSnap,
      calculateOrderTotal, calculateVAT, roundPrice, jsRound, VAT_RATE, SHIPPING_FLAT_RATE,
      List.find?, couponDiscount, PreparedCheckout.mk.injEq, OrderItem.mk.injEq]
    rfl
  · norm_num [raceFinalDb, checkoutCommit, raceDb, racePrep1, racePrep2, decrementStocks,
      updateEach, dbUpdate, dbLookup, raceSnap]
  · norm_num [raceFinalDb, checkoutCommit, raceDb, racePrep1, racePrep2, decrementStocks,
      updateEach, dbUpdate, raceSnap]
  · norm_num [raceFinalDb, checkoutCommit, raceDb, racePrep1, racePrep2, decrementStocks,
      updateEach, dbUpdate, raceSnap]

theorem cancelOrder_ok_eq {db : Db} {userId orderId : Nat} {o : Order}
    (ho : dbLookup orderId db.orders = some o)
    (hu : o.userId = userId)
    (hs : o.status = .PENDING ∨ o.status = .CONFIRMED) :
    cancelOrder db userId orderId =
      ({ db with variants := restoreStocks db.variants o.items,
                 orders := dbUpdate orderId
                   (fun ord => { ord with status := .CANCELLED }) db.orders },
       .ok { o with status := .CANCELLED }) := by
  have hcond : ¬(o.status ≠ OrderStatus.PENDING ∧ o.status ≠ OrderStatus.CONFIRMED) := by
    rcases hs with h | h <;> simp [h]
  simp only [cancelOrder, ho]
  rw [if_neg (by simp [hu]), if_neg hcond]

theorem cancelOrder_cancelled_fails {db : Db} {userId orderId : Nat} {o : Order}
    (ho : dbLookup orderId db.orders = some o)
    (hu : o.userId = userId)
    (hs : o.status = .CANCELLED) :
    cancelOrder db userId orderId = (db, .error .orderCancelNotAllowed) := by
  simp only [cancelOrder, ho]
  rw [if_neg (by simp [hu]), if_pos (by simp [hs])]

/-- C5: user cancellation succeeds exactly when the order exists, belongs
to the requesting user and is PENDING or CONFIRMED; on success each item's
quantity is restored onto its variant's stock exactly once and the status
becomes CANCELLED; any failure (including cancelling an already CANCELLED
order) raises the cancel-not-allowed or not-found error and leaves the
store untouched, so repeating cancellation never double-restores stock. -/
theorem cancelOrder_spec (db : Db) (userId orderId : Nat) :
    ((∃ o, dbLookup orderId db.orders = some o ∧ o.userId = userId ∧
        (o.status = .PENDING ∨ o.status = .CONFIRMED)) ↔
      ∃ o', (cancelOrder db userId orderId).2 = .ok o') ∧
    (∀ e, (cancelOrder db userId orderId).2 = .error e →
      (cancelOrder db userId orderId).1 = db) ∧
    (∀ o, dbLookup orderId db.orders = some o → o.userId = userId →
      (o.status = .PENDING ∨ o.status = .CONFIRMED) →
      ((o.items.map OrderItem.variantId).Nodup →
        ∀ it ∈ o.items, ∀ v, dbLookup it.variantId db.variants = some v →
          dbLookup it.variantId (cancelOrder db userId orderId).1.variants =
            some { v with stockQuantity := v.stockQuantity + (it.quantity : Int) }) ∧
      dbLookup orderId (cancelOrder db userId orderId).1.orders =
        some { o with status := .CANCELLED } ∧
      (cancelOrder (cancelOrder db userId orderId).1 userId orderId).2 =
        .error .orderCancelNotAllowed ∧
      (cancelOrder (cancelOrder db userId orderId).1 userId orderId).1 =
        (cancelOrder db userId orderId).1) := by
  refine ⟨⟨?_, ?_⟩, ?_, ?_⟩
  · rintro ⟨o, ho, hu, hs⟩
    exact ⟨{ o with status := .CANCELLED }, by rw [cancelOrder_ok_eq ho hu hs]⟩
  · rintro ⟨o', hok⟩
    cases ho : dbLookup orderId db.orders with
    | none =>
      simp only [cancelOrder, ho] at hok
      exact Except.noConfusion hok
    | some o =>
      refine ⟨o, rfl, ?_⟩
      by_cases hu : o.userId = userId
      · by_cases hs : o.status = OrderStatus.PENDING ∨ o.status = OrderStatus.CONFIRMED
        · exact ⟨hu, hs⟩
        · exfalso
          have hcond : o.status ≠ OrderStatus.PENDING ∧ o.status ≠ OrderStatus.CONFIRMED := by
            constructor <;> intro h <;> exact hs (by simp [h])
          simp only [cancelOrder, ho] at hok
          rw [if_neg (by simp [hu]), if_pos hcond] at hok
          exact Except.noConfusion hok
      · exfalso
        simp only [cancelOrder, ho] at hok
        rw [if_pos hu] at hok
        exact Except.noConfusion hok
  · intro e herr
    cases ho : dbLookup orderId db.orders with
    | none => simp only [cancelOrder, ho]
    | some o =>
      by_cases hu : o.userId = userId
      · by_cases hs : o.status = OrderStatus.PENDING ∨ o.status = OrderStatus.CONFIRMED
        · rw [cancelOrder_ok_eq ho hu hs] at herr
          exact Except.noConfusion herr
        · have hcond : o.status ≠ OrderStatus.PENDING ∧ o.status ≠ OrderStatus.CONFIRMED := by
            constructor <;> intro h <;> exact hs (by simp [h])
          simp only [cancelOrder, ho]
          rw [if_neg (by simp [hu]), if_pos hcond]
      · simp only [cancelOrder, ho]
        rw [if_pos hu]
  · intro o ho hu hs
    have hR := cancelOrder_ok_eq ho hu hs
    have horders : (cancelOrder db userId orderId).1.orders =
        dbUpdate orderId (fun ord => { ord with status := .CANCELLED }) db.orders := by
      rw [hR]
    have hlook2 : dbLookup orderId (cancelOrder db userId orderId).1.orders =
        some { o with status := .CANCELLED } := by
      rw [horders, dbLookup_dbUpdate_self, ho]
      rfl
    refine ⟨?_, hlook2, ?_, ?_⟩
    · intro hnd it hit v hv
      have hvars : (cancelOrder db userId orderId).1.variants =
          restoreStocks db.variants o.items := by
        rw [hR]
      rw [hvars, restoreStocks,
        updateEach_lookup_mem _ db.variants o.items it hit hnd, hv]
      rfl
    · rw [cancelOrder_cancelled_fails hlook2 hu rfl]
    · rw [cancelOrder_cancelled_fails hlook2 hu rfl]

/-- Witness for C5: cancelling a PENDING one-item order (quantity 2 of
variant 0, stock 3) restores the stock to 5, marks the order CANCELLED,
and a repeated cancellation fails with the state error. -/
theorem cancelOrder_spec_witness :
    dbLookup 0 (cancelOrder
      ⟨[(0, ⟨3, 0, "Red", "M", ⟨"Tee", 1000⟩⟩)], [], [], [],
        [(5, ⟨"VT-5", 1, .PENDING, 2000, 0, 2500, 150, 4650,
          ⟨"A", "B", "", "", "", "", "", "NG"⟩, none, none,
          [⟨0, 2, 1000, 2000, "Tee", "Red", "M"⟩]⟩)], []⟩ 1 5).1.variants =
      some ⟨5, 0, "Red", "M", ⟨"Tee", 1000⟩⟩ ∧
    (cancelOrder (cancelOrder
      ⟨[(0, ⟨3, 0, "Red", "M", ⟨"Tee", 1000⟩⟩)], [], [], [],
        [(5, ⟨"VT-5", 1, .PENDING, 2000, 0, 2500, 150, 4650,
          ⟨"A", "B", "", "", "", "", "", "NG"⟩, none, none,
          [⟨0, 2, 1000, 2000, "Tee", "Red", "M"⟩]⟩)], []⟩ 1 5).1 1 5).2 =
      .error .orderCancelNotAllowed := by
  have h := (cancelOrder_spec
    ⟨[(0, ⟨3, 0, "Red", "M", ⟨"Tee", 1000⟩⟩)], [], [], [],
      [(5, ⟨"VT-5", 1, .PENDING, 2000, 0, 2500, 150, 4650,
        ⟨"A", "B", "", "", "", "", "", "NG"⟩, none, none,
        [⟨0, 2, 1000, 2000, "Tee", "Red", "M"⟩]⟩)], []⟩ 1 5).2.2
    ⟨"VT-5", 1, .PENDING, 2000, 0, 2500, 150, 4650,
      ⟨"A", "B", "", "", "", "", "", "NG"⟩, none, none,
      [⟨0, 2, 1000, 2000, "Tee", "Red", "M"⟩]⟩ rfl rfl (Or.inl rfl)
  refine ⟨?_, h.2.2.1⟩
  have h1 := h.1 (by simp) ⟨0, 2, 1000, 2000, "Tee", "Red", "M"⟩ (by simp)
    ⟨3, 0, "Red", "M", ⟨"Tee", 1000⟩⟩ rfl
  simpa using h1

/-- C7: a webhook whose reference is unknown, or whose amount differs from
the stored payment's amount, raises the typed PaymentFailedException and
mutates nothing: the whole store (hence the Payment row and its Order) is
exactly as before. Both checks run before the update transaction. -/
theorem handleWebhook_rejects_without_mutation
    (db : Db) (dto : OPayWebhookDto) (now : Int)
    (h : findPaymentByRef dto.reference db.payments = none ∨
      ∃ pid p, findPaymentByRef dto.reference db.payments = some (pid, p) ∧
        p.amount ≠ dto.amount) :
    (handleWebhook db dto now).1 = db ∧
    (handleWebhook db dto now).2 = .error .paymentFailed := by
  rcases h with h | ⟨pid, p, hfind, hne⟩
  · constructor <;> simp only [handleWebhook, h]
  · constructor <;>
    · simp only [handleWebhook, hfind]
      rw [if_pos hne]

/-- Witness for C7: a webhook with an unknown reference against an empty
store is rejected and the store is unchanged. -/
theorem handleWebhook_rejects_witness :
    (handleWebhook ⟨[], [], [], [], [], []⟩
        ⟨"o1", "PAY-1", .SUCCESS, 100, "NGN"⟩ 50).1 = ⟨[], [], [], [], [], []⟩ ∧
    (handleWebhook ⟨[], [], [], [], [], []⟩
        ⟨"o1", "PAY-1", .SUCCESS, 100, "NGN"⟩ 50).2 = .error .paymentFailed :=
  handleWebhook_rejects_without_mutation ⟨[], [], [], [], [], []⟩
    ⟨"o1", "PAY-1", .SUCCESS, 100, "NGN"⟩ 50 (Or.inl rfl)

/-- Concrete webhook scenario: order 0 (PENDING) with payment 0
(reference PAY-1, amount 3575, PENDING). -/
def wSnap : AddressSnapshot := ⟨"Ngo", "Ade", "082", "3 Main", "Lagos", "LA", "100001", "NG"⟩

def wOrder : Order :=
  ⟨"VT-7", 1, .PENDING, 1000, 0, 2500, 75, 3575, wSnap, none, none, []⟩

def wPayment : Payment := ⟨0, "PAY-1", 3575, .PENDING, none, none, none⟩

def wDb : Db := ⟨[], [], [], [], [(0, wOrder)], [(0, wPayment)]⟩

def wSuccess : OPayWebhookDto := ⟨"0", "PAY-1", .SUCCESS, 3575, "NGN"⟩

def wFailed : OPayWebhookDto := ⟨"0", "PAY-1", .FAILED, 3575, "NGN"⟩

/-- C10: for a known reference with matching amount, the handler
unconditionally overwrites the payment's status with the callback status,
sets paidAt to the current time exactly when the callback is SUCCESS and to
null otherwise, and writes the order row (to CONFIRMED) only when the
callback is SUCCESS; consequently a FAILED callback delivered after a
successful one resets paidAt to null and downgrades the payment's status
while the order stays CONFIRMED. -/
theorem handleWebhook_overwrite_semantics :
    (∀ (db : Db) (dto : OPayWebhookDto) (now : Int) (pid : Nat) (p : Payment),
      findPaymentByRef dto.reference db.payments = some (pid, p) →
      p.amount = dto.amount →
      (handleWebhook db dto now).2 = .ok
        { p with status := dto.status
                 providerRef := some dto.reference
                 paidAt := if dto.status = .SUCCESS then some now else none
                 metadata := some dto } ∧
      (handleWebhook db dto now).1.payments = dbUpdate pid
        (fun _ => { p with status := dto.status
                           providerRef := some dto.reference
                           paidAt := if dto.status = .SUCCESS then some now else none
                           metadata := some dto }) db.payments ∧
      (dto.status ≠ .SUCCESS → (handleWebhook db dto now).1.orders = db.orders) ∧
      (dto.status = .SUCCESS → (handleWebhook db dto now).1.orders =
        dbUpdate p.orderId (fun o => { o with status := .CONFIRMED }) db.orders)) ∧
    (Option.map (fun pp => pp.2.paidAt) (findPaymentByRef "PAY-1"
        (handleWebhook (handleWebhook wDb wSuccess 100).1 wFailed 200).1.payments) =
      some none ∧
     Option.map (fun pp => pp.2.status) (findPaymentByRef "PAY-1"
        (handleWebhook (handleWebhook wDb wSuccess 100).1 wFailed 200).1.payments) =
      some .FAILED ∧
     Option.map Order.status (dbLookup 0
        (handleWebhook (handleWebhook wDb wSuccess 100).1 wFailed 200).1.orders) =
      some .CONFIRMED) := by
  constructor
  · intro db dto now pid p hfind heq
    have hamt : ¬(p.amount ≠ dto.amount) := not_not.mpr heq
    refine ⟨?_, ?_, ?_, ?_⟩
    · simp only [handleWebhook, hfind, if_neg hamt]
    · by_cases hsucc : dto.status = PaymentStatus.SUCCESS
      · simp [handleWebhook, hfind, if_neg hamt, hsucc]
      · simp [handleWebhook, hfind, if_neg hamt, hsucc]
    · intro hne
      simp [handleWebhook, hfind, if_neg hamt, hne]
    · intro hsucc
      simp [handleWebhook, hfind, if_neg hamt, hsucc]
  · refine ⟨?_, ?_, ?_⟩ <;>
      · norm_num [handleWebhook, findPaymentByRef, wDb, wPayment, wOrder, wSuccess,
          wFailed, wSnap, dbUpdate, dbLookup]
        try (intro h; exact PaymentStatus.noConfusion h)

/-- Witness for C10: delivering the PAY-1 SUCCESS callback at time 100
yields the overwritten payment row. -/
theorem handleWebhook_overwrite_semantics_witness :
    (handleWebhook wDb wSuccess 100).2 = .ok
      { wPayment with status := wSuccess.status
                      providerRef := some wSuccess.reference
                      paidAt := if wSuccess.status = .SUCCESS then some 100 else none
                      metadata := some wSuccess } :=
  (handleWebhook_overwrite_semantics.1 wDb wSuccess 100 0 wPayment rfl rfl).1

/-- Concrete scenario for C6: order 5 (PENDING) and its payment 3
(reference PAY-9, amount 3575, PENDING), receiving the same SUCCESS
callback twice. -/
def idemOrder : Order :=
  ⟨"VT-9", 2, .PENDING, 1000, 0, 2500, 75, 3575,
    ⟨"Uch", "Eke", "083", "4 Main", "Lagos", "LA", "100001", "NG"⟩, none, none, []⟩

def idemPayment : Payment := ⟨5, "PAY-9", 3575, .PENDING, none, none, none⟩

def idemDb : Db := ⟨[], [], [], [], [(5, idemOrder)], [(3, idemPayment)]⟩

def idemDto : OPayWebhookDto := ⟨"5", "PAY-9", .SUCCESS, 3575, "NGN"⟩

/-- C6: reconciliation is not idempotent in the code. Delivering the same
SUCCESS payload twice (at times 100 and 200) overwrites the
paid-timestamp: after the first call paidAt = 100, after the second
paidAt = 200, so the second invocation is not a no-op and the final state
differs from a single delivery; the spec's designed-in idempotency
requirement (paidAt set exactly once) is violated by the unconditional
`paidAt: new Date()` write. -/
theorem handleWebhook_second_success_overwrites_paidAt :
    Option.map (fun pp => pp.2.paidAt)
      (findPaymentByRef "PAY-9" (handleWebhook idemDb idemDto 100).1.payments) =
      some (some 100) ∧
    Option.map (fun pp => pp.2.paidAt)
      (findPaymentByRef "PAY-9"
        (handleWebhook (handleWebhook idemDb idemDto 100).1 idemDto 200).1.payments) =
      some (some 200) ∧
    Option.map Order.status
      (dbLookup 5 (handleWebhook (handleWebhook idemDb idemDto 100).1 idemDto 200).1.orders) =
      some .CONFIRMED := by
  refine ⟨?_, ?_, ?_⟩ <;>
    norm_num [handleWebhook, findPaymentByRef, idemDb, idemPayment, idemOrder, idemDto,
      dbUpdate, dbLookup]

/-- Concrete scenario for C8: an active coupon whose expiresAt equals the
current clock, no usage cap, no minimum. -/
def bVariant : Variant := ⟨5, 0, "Blue", "L", ⟨"Cap", 2000⟩⟩

def bCoupon : Coupon := ⟨"SAVE", .FIXED_AMOUNT, 500, true, 0, 50, none, 0, none⟩

def bDb : Db := ⟨[(0, bVariant)], [(7, bCoupon)], [], [(1, ⟨[⟨0, 1⟩], none⟩)], [], []⟩

/-- C8 counterexample: the validity window is closed, not half-open. A
coupon with expiresAt = 50 applied at now = 50 is accepted and attached to
the cart (the source rejects only when `expiresAt < now`), refuting the
claim that a coupon whose expiresAt equals the current time is already
expired. -/
theorem applyCoupon_accepts_at_expiry_instant :
    bCoupon.expiresAt = 50 ∧
    (applyCoupon bDb 1 "SAVE" 50).2 = .ok () ∧
    Option.map Cart.couponId (dbLookup 1 (applyCoupon bDb 1 "SAVE" 50).1.carts) =
      some (some 7) := by
  refine ⟨rfl, ?_, ?_⟩ <;>
    norm_num [applyCoupon, bDb, bCoupon, bVariant, dbLookup, findCouponByCode,
      maxUsesExceeded, cartSubtotal, dbUpdate]

/-- C8 (amended): applying a coupon fails with a typed error when the
coupon is inactive, when the current time is outside the closed window
[startsAt, expiresAt] (a coupon whose expiresAt equals the current time is
still valid), when usedCount has reached a nonzero maxUses, or when the
cart subtotal is below a set minOrderAmount — the minimum-not-met error
carrying the required minimum; each failure leaves the store unchanged,
and when all rules pass the coupon is attached to the cart, replacing any
previously attached coupon. -/
theorem applyCoupon_spec
    (db : Db) (userId : Nat) (code : String) (now : Int)
    (cart : Cart) (cid : Nat) (coupon : Coupon)
    (hcart : dbLookup userId db.carts = some cart)
    (hne : cart.items.isEmpty = false)
    (hcup : findCouponByCode code db.coupons = some (cid, coupon)) :
    (coupon.isActive = false →
      applyCoupon db userId code now = (db, .error (.invalidCoupon .notActive))) ∧
    (coupon.isActive = true → (coupon.startsAt > now ∨ coupon.expiresAt < now) →
      applyCoupon db userId code now = (db, .error (.invalidCoupon .expired))) ∧
    (coupon.isActive = true → coupon.startsAt ≤ now → now ≤ coupon.expiresAt →
      maxUsesExceeded coupon →
      applyCoupon db userId code now = (db, .error (.invalidCoupon .maxUsesReached))) ∧
    (coupon.isActive = true → coupon.startsAt ≤ now → now ≤ coupon.expiresAt →
      ¬ maxUsesExceeded coupon →
      ∀ m, coupon.minOrderAmount = some m → cartSubtotal db cart.items < m →
      applyCoupon db userId code now = (db, .error (.couponMinNotMet m))) ∧
    (coupon.isActive = true → coupon.startsAt ≤ now → now ≤ coupon.expiresAt →
      ¬ maxUsesExceeded coupon →
      (coupon.minOrderAmount = none ∨
        ∃ m, coupon.minOrderAmount = some m ∧ m ≤ cartSubtotal db cart.items) →
      applyCoupon db userId code now =
        ({ db with carts := dbUpdate userId (fun c => { c with couponId := some cid }) db.carts },
         .ok ())) := by
  have hnemp : ¬(cart.items.isEmpty = true) := by simp [hne]
  refine ⟨?_, ?_, ?_, ?_, ?_⟩
  · intro hact
    simp only [applyCoupon, hcart, hcup]
    rw [if_neg hnemp, if_pos (by simp [hact])]
  · intro hact hwin
    simp only [applyCoupon, hcart, hcup]
    rw [if_neg hnemp, if_neg (by simp [hact]), if_pos hwin]
  · intro hact hst hex hmax
    simp only [applyCoupon, hcart, hcup]
    rw [if_neg hnemp, if_neg (by simp [hact]),
      if_neg (by push_neg; exact ⟨hst, hex⟩), if_pos hmax]
  · intro hact hst hex hmax m hm hlt
    simp only [applyCoupon, hcart, hcup]
    rw [if_neg hnemp, if_neg (by simp [hact]),
      if_neg (by push_neg; exact ⟨hst, hex⟩), if_neg hmax]
    simp only [hm]
    rw [if_pos hlt]
  · intro hact hst hex hmax hmin
    simp only [applyCoupon, hcart, hcup]
    rw [if_neg hnemp, if_neg (by simp [hact]),
      if_neg (by push_neg; exact ⟨hst, hex⟩), if_neg hmax]
    rcases hmin with hm | ⟨m, hm, hge⟩
    · simp only [hm]
    · simp only [hm]
      rw [if_neg (not_lt.mpr hge)]

/-- Witness for C8: a coupon with minOrderAmount = 5000 against a cart
with subtotal 4000 (2000 naira cap, quantity 2) is rejected with the
configured minimum 5000 in the error and the store is unchanged. -/
theorem applyCoupon_spec_witness :
    applyCoupon ⟨[(0, ⟨5, 0, "Blue", "L", ⟨"Cap", 2000⟩⟩)],
        [(7, ⟨"MIN", .FIXED_AMOUNT, 500, true, 0, 50, none, 0, some 5000⟩)], [],
        [(1, ⟨[⟨0, 2⟩], none⟩)], [], []⟩ 1 "MIN" 10 =
      (⟨[(0, ⟨5, 0, "Blue", "L", ⟨"Cap", 2000⟩⟩)],
        [(7, ⟨"MIN", .FIXED_AMOUNT, 500, true, 0, 50, none, 0, some 5000⟩)], [],
        [(1, ⟨[⟨0, 2⟩], none⟩)], [], []⟩, .error (.couponMinNotMet 5000)) :=
  ((applyCoupon_spec ⟨[(0, ⟨5, 0, "Blue", "L", ⟨"Cap", 2000⟩⟩)],
      [(7, ⟨"MIN", .FIXED_AMOUNT, 500, true, 0, 50, none, 0, some 5000⟩)], [],
      [(1, ⟨[⟨0, 2⟩], none⟩)], [], []⟩ 1 "MIN" 10
      ⟨[⟨0, 2⟩], none⟩ 7 ⟨"MIN", .FIXED_AMOUNT, 500, true, 0, 50, none, 0, some 5000⟩
      rfl rfl rfl).2.2.2.1 rfl (by norm_num) (by norm_num)
    (by simp [maxUsesExceeded]) 5000 rfl
    (by norm_num [cartSubtotal, dbLookup]))

/-- Concrete scenario for C9: the cart has an attached coupon that is both
inactive and long expired (window [0, 10]) worth a fixed 500. -/
def staleSnap : AddressSnapshot := ⟨"Ife", "Ojo", "084", "5 Main", "Lagos", "LA", "100001", "NG"⟩

def staleCoupon : Coupon := ⟨"OLD", .FIXED_AMOUNT, 500, false, 0, 10, none, 0, none⟩

def staleDb : Db :=
  ⟨[(0, ⟨5, 0, "Red", "M", ⟨"Tee", 1000⟩⟩)], [(7, staleCoupon)],
    [⟨1, 1, staleSnap⟩], [(1, ⟨[⟨0, 1⟩], some 7⟩)], [], []⟩

/-- C9 counterexample: checkout does not re-validate the attached coupon.
`checkout` takes no clock at all and reads only the coupon's type and
value: a coupon that is inactive and whose window [0, 10] is long past
still grants its 500 discount, and its usedCount is still incremented —
refuting the claim that an invalidated coupon does not grant its
discount. -/
theorem checkout_grants_expired_coupon_discount :
    staleCoupon.isActive = false ∧
    staleCoupon.expiresAt = 10 ∧
    Except.map Order.discount (checkout staleDb 1 1 none "VT-S").2 = .ok 500 ∧
    Option.map Coupon.usedCount
      (dbLookup 7 (checkout staleDb 1 1 none "VT-S").1.coupons) = some 1 := by
  refine ⟨rfl, rfl, ?_, ?_⟩ <;>
    norm_num [checkout, checkoutPrepare, checkoutCommit, buildOrderItems, dbLookup,
      staleDb, staleCoupon, staleSnap, calculateOrderTotal, calculateVAT, roundPrice,
      jsRound, VAT_RATE, SHIPPING_FLAT_RATE, List.find?, couponDiscount,
      decrementStocks, updateEach, dbUpdate, Option.bind, Except.map]

/-- C9 (amended): at checkout the discount is computed from the attached
coupon's type and value against the freshly recomputed subtotal only; the
active flag, validity window, usage cap and minimum-order requirement are
not re-validated (there is no checkout-time clock), so a coupon that
became invalid after application still grants its discount. -/
theorem checkout_discount_ignores_coupon_validity
    (db : Db) (userId addressId : Nat) (notes : Option String)
    (cart : Cart) (cid : Nat) (c : Coupon) (p : PreparedCheckout)
    (hcart : dbLookup userId db.carts = some cart)
    (hcid : cart.couponId = some cid)
    (hc : dbLookup cid db.coupons = some c)
    (hp : checkoutPrepare db userId addressId notes = .ok p) :
    p.discount = couponDiscount c p.subtotal ∧
    p.subtotal = (p.orderItems.map (fun o => o.totalPrice)).sum := by
  simp only [checkoutPrepare, hcart] at hp
  by_cases hne : cart.items.isEmpty
  · rw [if_pos hne] at hp
    exact Except.noConfusion hp
  · rw [if_neg hne] at hp
    cases ha : db.addresses.find? (fun a => a.id == addressId && a.userId == userId) with
    | none =>
      rw [ha] at hp
      exact Except.noConfusion hp
    | some address =>
      rw [ha] at hp
      cases hb : buildOrderItems db cart.items with
      | error e =>
        rw [hb] at hp
        exact Except.noConfusion hp
      | ok ois =>
        rw [hb] at hp
        rw [hcid] at hp
        cases hp
        constructor
        · simp [hc]
        · rfl

/-- The prepared-checkout data the service computes for `staleDb`:
subtotal 1000, stale-coupon discount 500, VAT 37.5, total 3037.5. -/
def stalePrep : PreparedCheckout :=
  ⟨1, some 7, [⟨0, 1, 1000, 1000, "Tee", "Red", "M"⟩], 1000, 500, 2500,
    375/10, 30375/10, 500, staleSnap, none⟩

/-- Witness for C9: on the stale-coupon store the prepared discount equals
the coupon formula applied to the fresh subtotal. -/
theorem checkout_discount_ignores_coupon_validity_witness :
    stalePrep.discount = couponDiscount staleCoupon stalePrep.subtotal ∧
    stalePrep.subtotal = (stalePrep.orderItems.map (fun o => o.totalPrice)).sum :=
  checkout_discount_ignores_coupon_validity staleDb 1 1 none
    ⟨[⟨0, 1⟩], some 7⟩ 7 staleCoupon stalePrep rfl rfl rfl
    (by norm_num [checkoutPrepare, buildOrderItems, dbLookup, staleDb, staleCoupon,
      staleSnap, stalePrep, calculateOrderTotal, calculateVAT, roundPrice, jsRound,
      VAT_RATE, SHIPPING_FLAT_RATE, List.find?, couponDiscount, Option.bind,
      PreparedCheckout.mk.injEq, OrderItem.mk.injEq])

end VogueTribe
